import Mathlib

/-!
Verification of the pod-sandbox creation service ("run sandbox" saga) of this
repository: name reservation, network-namespace and CNI setup, execution-spec
generation, sandbox-directory file preparation, task creation/start, store
commit, and the reverse-order compensating rollback on failure.

The Go source (RunPodSandbox, generateSandboxContainerSpec, setupSandboxFiles,
parseDNSOptions, unmountSandboxFiles, toCNIPortMappings) is embedded shallowly:
pure helpers become Lean functions; the stateful saga becomes an explicit
world-state-passing function where each external collaborator (image service,
OS, CNI plugin, execution engine) is driven by an injection environment that
says which call fails.
-/

set_option maxHeartbeats 1000000

namespace CriSandbox

/-! ### Fixed constants

`maxDNSSearches` is pinned by the source's own error message ("more than 6
domains"); the path shapes follow the persisted layout (a root directory per
sandbox id holding `etc-hosts`, `resolv.conf` and a `shm` mount point). -/

def etcHosts : String := "/etc/hosts"

def resolvConfPath : String := "/etc/resolv.conf"

def devShm : String := "/dev/shm"

def relativeRootfsPath : String := "rootfs"

def maxDNSSearches : Nat := 6

/-- Modelled from the spec: the sandbox-private shm tmpfs has a fixed default
size (64 MiB per the source comment next to the mount call). -/
def defaultShmSize : Nat := 67108864

/-- Modelled from the spec: fixed default CPU-shares value for the sandbox
process (a sandbox-level default, not derived from pod resources). -/
def defaultSandboxCPUshares : Nat := 2

/-- Modelled from the spec: fixed default OOM-score-adjustment value for the
sandbox process. -/
def defaultSandboxOOMAdj : Int := -998

def getSandboxRootDir (rootDir id : String) : String := rootDir ++ "/" ++ id

def getSandboxHosts (sandboxRootDir : String) : String := sandboxRootDir ++ "/etc-hosts"

def getResolvPath (sandboxRootDir : String) : String := sandboxRootDir ++ "/resolv.conf"

def getSandboxDevShm (sandboxRootDir : String) : String := sandboxRootDir ++ "/shm"

/-! ### DNS rendering (parseDNSOptions) -/

/-- Shallow embedding of `parseDNSOptions`: renders DNS servers, search
domains and options into resolver-file syntax, rejecting more than
`maxDNSSearches` search domains. -/
def parseDNSOptions (servers searches options : List String) :
    Except String String :=
  if searches.length > maxDNSSearches then
    .error "DNSOption.Searches has more than 6 domains"
  else
    let c1 := if 0 < searches.length then
        "search " ++ String.intercalate " " searches ++ "\n" else ""
    let c2 := if 0 < servers.length then
        "nameserver " ++ String.intercalate "\nnameserver " servers ++ "\n" else ""
    let c3 := if 0 < options.length then
        "options " ++ String.intercalate " " options ++ "\n" else ""
    .ok (c1 ++ c2 ++ c3)

/-! ### CRI to CNI port-mapping translation (toCNIPortMappings) -/

/-- The CRI protocol enum; its Go `String()` form is upper case. -/
inductive Protocol
  | tcp
  | udp
deriving DecidableEq, Repr

def Protocol.goName : Protocol → String
  | .tcp => "TCP"
  | .udp => "UDP"

/-- ASCII lower-casing, standing in for the Go strings.ToLower call. -/
def strToLower (s : String) : String := ⟨s.data.map Char.toLower⟩

structure PortMapping where
  protocol : Protocol
  containerPort : Int
  hostPort : Int
  hostIp : String
deriving DecidableEq, Repr

structure CNIPortMapping where
  hostPort : Int
  containerPort : Int
  protocol : String
  hostIP : String
deriving DecidableEq, Repr

/-- Shallow embedding of `toCNIPortMappings`: the Go loop skips mappings with
`HostPort <= 0` and lower-cases the protocol name of the rest. -/
def toCNIPortMappings : List PortMapping → List CNIPortMapping
  | [] => []
  | m :: rest =>
    if m.hostPort ≤ 0 then toCNIPortMappings rest
    else { hostPort := m.hostPort, containerPort := m.containerPort,
           protocol := strToLower m.protocol.goName, hostIP := m.hostIp } ::
         toCNIPortMappings rest

/-- Stated from the claim's words, for comparison with the source embedding:
forward exactly the mappings with positive host port, preserving host and
container ports and lower-casing the protocol name. -/
def cniPortMappingsSpec (l : List PortMapping) : List CNIPortMapping :=
  (l.filter (fun m => 0 < m.hostPort)).map
    (fun m => { hostPort := m.hostPort, containerPort := m.containerPort,
                protocol := strToLower m.protocol.goName, hostIP := m.hostIp })

/-! ### Pod configuration (the parts the embedded code reads) -/

structure DNSConfig where
  servers : List String
  searches : List String
  options : List String
deriving DecidableEq, Repr

structure SELinuxOption where
  user : String
  role : String
  typ : String
  level : String
deriving DecidableEq, Repr

/-- The declarative pod sandbox configuration: metadata, hostname, cgroup
parent, namespace-sharing options of the Linux security context, SELinux
options, supplemental groups, sysctls, DNS config and port mappings. -/
structure PodSandboxConfig where
  metaName : String
  metaNamespace : String
  metaUid : String
  metaAttempt : Nat
  hostname : String
  cgroupParent : String
  hostNetwork : Bool
  hostPid : Bool
  hostIpc : Bool
  privileged : Bool
  seccompProfilePath : String
  selinuxOptions : Option SELinuxOption
  supplementalGroups : List Int
  sysctls : List (String × String)
  dnsConfig : Option DNSConfig
  portMappings : List PortMapping
deriving DecidableEq, Repr

/-! ### OS layer: recorded file, directory and mount effects

The OS collaborator is recorded as state: each successful copy/write/mkdir/
mount appends a record. Which calls fail is injected through `OSEnv`. -/

inductive FileAction
  | copied (src dst : String)
  | written (dst : String) (content : String)
deriving DecidableEq, Repr

def FileAction.dst : FileAction → String
  | .copied _ d => d
  | .written d _ => d

/-- Linux mount-flag bits used by the source (unix.MS_NOSUID, MS_NODEV,
MS_NOEXEC). -/
def MS_NOSUID : Nat := 2

def MS_NODEV : Nat := 4

def MS_NOEXEC : Nat := 8

structure MountRecord where
  source : String
  target : String
  fstype : String
  flags : Nat
  data : String
deriving DecidableEq, Repr

structure OSState where
  files : List FileAction
  dirs : List String
  mounts : List MountRecord
deriving DecidableEq, Repr

/-- Injection environment for the OS calls made by setupSandboxFiles: whether
each call succeeds, and whether the host /dev/shm exists for the stat. -/
structure OSEnv where
  copyHostsOk : Bool
  copyResolvOk : Bool
  writeResolvOk : Bool
  hostShmExists : Bool
  mkdirShmOk : Bool
  mountShmOk : Bool
deriving DecidableEq, Repr

/-- Failure kinds of setupSandboxFiles, one per early-return of the source. -/
inductive SetupError
  | hostsCopyFailed
  | dnsInvalidConfig
  | resolvCopyFailed
  | resolvWriteFailed
  | hostShmMissing
  | shmMkdirFailed
  | shmMountFailed
deriving DecidableEq, Repr

/-- The tmpfs mount that the source establishes for the sandbox-private
/dev/shm: flags unix.MS_NOEXEC|MS_NOSUID|MS_NODEV and the property string
built from the fixed mode 1777 and the default shm size. -/
def shmMountRecord (rootDir : String) : MountRecord :=
  { source := "shm", target := getSandboxDevShm rootDir, fstype := "tmpfs",
    flags := MS_NOEXEC ||| MS_NOSUID ||| MS_NODEV,
    data := "mode=1777,size=" ++ toString defaultShmSize }

/-- The DNS block of `setupSandboxFiles`: the rendered content of the DNS
config, or the empty string when no DNS config is given. -/
def resolvContentOf (config : PodSandboxConfig) : Except SetupError String :=
  match config.dnsConfig with
  | none => .ok ""
  | some dnsConfig =>
    match parseDNSOptions dnsConfig.servers dnsConfig.searches dnsConfig.options with
    | .error _ => .error .dnsInvalidConfig
    | .ok s => .ok s

/-- The resolv.conf block of `setupSandboxFiles`: when the rendered content
is empty the host's /etc/resolv.conf is copied, otherwise the content is
written to the sandbox's resolv.conf. -/
def resolvStep (env : OSEnv) (rootDir content : String) (os : OSState) :
    Except SetupError Unit × OSState :=
  let resolvPath := getResolvPath rootDir
  if content = "" then
    if !env.copyResolvOk then (.error .resolvCopyFailed, os)
    else (.ok (), { os with files := os.files ++ [.copied resolvConfPath resolvPath] })
  else
    if !env.writeResolvOk then (.error .resolvWriteFailed, os)
    else (.ok (), { os with files := os.files ++ [.written resolvPath content] })

/-- The /dev/shm block of `setupSandboxFiles`: a stat of the host's path
under host IPC, otherwise a private directory plus the tmpfs mount. -/
def shmStep (env : OSEnv) (rootDir : String) (config : PodSandboxConfig)
    (os : OSState) : Except SetupError Unit × OSState :=
  if config.hostIpc then
    if !env.hostShmExists then (.error .hostShmMissing, os)
    else (.ok (), os)
  else
    if !env.mkdirShmOk then (.error .shmMkdirFailed, os)
    else
      let os3 : OSState := { os with dirs := os.dirs ++ [getSandboxDevShm rootDir] }
      if !env.mountShmOk then (.error .shmMountFailed, os3)
      else (.ok (), { os3 with mounts := os3.mounts ++ [shmMountRecord rootDir] })

/-- Shallow embedding of `setupSandboxFiles`: copy the host's /etc/hosts,
materialize resolv.conf (synthesized from the DNS config when its rendering
is non-empty, otherwise copied from the host), then prepare /dev/shm. Earlier
effects are kept when a later step fails, exactly as in the source. -/
def setupSandboxFiles (env : OSEnv) (rootDir : String)
    (config : PodSandboxConfig) (os : OSState) :
    Except SetupError Unit × OSState :=
  if !env.copyHostsOk then (.error .hostsCopyFailed, os)
  else
    let os1 : OSState :=
      { os with files := os.files ++ [.copied etcHosts (getSandboxHosts rootDir)] }
    match resolvContentOf config with
    | .error e => (.error e, os1)
    | .ok resolvContent =>
      match resolvStep env rootDir resolvContent os1 with
      | (.error e, os2) => (.error e, os2)
      | (.ok _, os2) => shmStep env rootDir config os2

/-- Modelled from the spec: the OS unmount primitive (the source calls
unix.Unmount through its OS interface, which is not part of this file set).
Per the collaborator contract, detaching an existing mount succeeds and
removes it from the mount table; unmounting a target that is not mounted
reports a does-not-exist error, the condition the caller tests with
os.IsNotExist. -/
def osUnmount (target : String) (os : OSState) : Bool × OSState :=
  if os.mounts.any (fun m => m.target == target) then
    (true, { os with mounts := os.mounts.filter (fun m => m.target != target) })
  else
    (false, os)

/-- Shallow embedding of `unmountSandboxFiles`: for a non-host-IPC sandbox
unmount the private shm mount point, tolerating a does-not-exist error; for a
host-IPC sandbox do nothing. -/
def unmountSandboxFiles (rootDir : String) (config : PodSandboxConfig)
    (os : OSState) : Except SetupError OSState :=
  if !config.hostIpc then
    let r := osUnmount (getSandboxDevShm rootDir) os
    -- r.fst = false is the IsNotExist case, tolerated by the source.
    .ok r.snd
  else
    .ok os

/-! ### Execution spec builder (generateSandboxContainerSpec) -/

/-- The image config fields read by the spec builder. Environment entries are
modelled pre-split into key/value pairs. -/
structure ImageConfig where
  env : List (String × String)
  workingDir : String
  entrypoint : List String
  cmd : List String
deriving DecidableEq, Repr

structure LinuxNamespace where
  typ : String
  path : String
deriving DecidableEq, Repr

/-- The parts of the OCI runtime specification the source touches. -/
structure RuntimeSpec where
  processArgs : List String
  processEnv : List (String × String)
  processCwd : String
  hostname : String
  rootPath : String
  rootReadonly : Bool
  cgroupsPath : Option String
  namespaces : List LinuxNamespace
  processSelinuxLabel : String
  mountLabel : String
  additionalGids : List Int
  sysctls : List (String × String)
  cpuShares : Nat
  oomScoreAdj : Int
deriving DecidableEq, Repr

/-- Modelled from the spec: the fixed baseline specification for a given id
(`defaultRuntimeSpec`, defined outside src/). It carries the standard private
namespaces, including network, PID and IPC entries with empty paths, which
the builder later removes or repoints. -/
def defaultRuntimeSpec (_id : String) : RuntimeSpec :=
  { processArgs := [], processEnv := [], processCwd := "/", hostname := "",
    rootPath := "", rootReadonly := false, cgroupsPath := none,
    namespaces := [{ typ := "pid", path := "" }, { typ := "ipc", path := "" },
                   { typ := "uts", path := "" }, { typ := "mount", path := "" },
                   { typ := "network", path := "" }],
    processSelinuxLabel := "", mountLabel := "", additionalGids := [],
    sysctls := [], cpuShares := 0, oomScoreAdj := 0 }

/-- The generate-package RemoveLinuxNamespace operation: drop every namespace
entry of the given type. -/
def removeLinuxNamespace (typ : String) (s : RuntimeSpec) : RuntimeSpec :=
  { s with namespaces := s.namespaces.filter (fun n => n.typ != typ) }

/-- The generate-package AddOrReplaceLinuxNamespace operation: replace the
path of an existing entry of the given type, else append a new entry. -/
def addOrReplaceLinuxNamespace (typ path : String) (s : RuntimeSpec) :
    RuntimeSpec :=
  if s.namespaces.any (fun n => n.typ == typ) then
    let repoint := fun n : LinuxNamespace =>
      if n.typ == typ then { n with path := path } else n
    { s with namespaces := s.namespaces.map repoint }
  else
    { s with namespaces := s.namespaces ++ [{ typ := typ, path := path }] }

/-- Modelled from the spec: SELinux label resolution (`initSelinuxOpts`,
defined outside src/) — empty options select empty process and mount labels,
and requested options determine both labels. -/
def initSelinuxOpts : Option SELinuxOption → String × String
  | none => ("", "")
  | some o =>
    let label := o.user ++ ":" ++ o.role ++ ":" ++ o.typ ++ ":" ++ o.level
    (label, label)

/-- Modelled from the spec: derived cgroup path (`getCgroupsPath`, defined
outside src/) — systemd-style versus native path construction under the
configured parent. -/
def getCgroupsPath (cgroupsParent id : String) (systemdCgroup : Bool) : String :=
  if systemdCgroup then cgroupsParent ++ ":cri-containerd:" ++ id
  else cgroupsParent ++ "/" ++ id

/-- Failure kinds of generateSandboxContainerSpec (InvalidConfig family). -/
inductive SpecGenError
  | emptyEntrypoint
deriving DecidableEq, Repr

/-- Shallow embedding of `generateSandboxContainerSpec`: start from the
baseline spec, import image env and working directory, require a non-empty
entrypoint, set args to entrypoint ++ cmd, set the relative read-only root
and hostname, the derived cgroups path when a parent is configured, apply the
namespace-sharing options (removing host-shared namespaces and repointing the
network namespace at nsPath otherwise), the SELinux labels, supplemental
groups, sysctls, and the fixed sandbox CPU-shares and OOM defaults. -/
def generateSandboxContainerSpec (id : String) (config : PodSandboxConfig)
    (imageConfig : ImageConfig) (nsPath : String) (systemdCgroup : Bool) :
    Except SpecGenError RuntimeSpec :=
  let s0 := defaultRuntimeSpec id
  let s1 := { s0 with processEnv := s0.processEnv ++ imageConfig.env }
  let s2 := if imageConfig.workingDir != "" then
      { s1 with processCwd := imageConfig.workingDir } else s1
  if imageConfig.entrypoint.isEmpty then
    .error .emptyEntrypoint
  else
    let s3 := { s2 with processArgs := imageConfig.entrypoint ++ imageConfig.cmd }
    let s4 := { s3 with rootPath := relativeRootfsPath, rootReadonly := true,
                        hostname := config.hostname }
    let s5 := if config.cgroupParent != "" then
        { s4 with cgroupsPath := some (getCgroupsPath config.cgroupParent id systemdCgroup) }
      else s4
    let s6 := if config.hostNetwork then removeLinuxNamespace "network" s5
      else addOrReplaceLinuxNamespace "network" nsPath s5
    let s7 := if config.hostPid then removeLinuxNamespace "pid" s6 else s6
    let s8 := if config.hostIpc then removeLinuxNamespace "ipc" s7 else s7
    let labels := initSelinuxOpts config.selinuxOptions
    let s9 := { s8 with processSelinuxLabel := labels.fst, mountLabel := labels.snd }
    let s10 := { s9 with additionalGids := s9.additionalGids ++ config.supplementalGroups }
    let s11 := { s10 with sysctls := s10.sysctls ++ config.sysctls }
    .ok { s11 with cpuShares := defaultSandboxCPUshares,
                   oomScoreAdj := defaultSandboxOOMAdj }

/-- Lookup of the network-namespace entry of a specification. -/
def networkNamespaceEntry (s : RuntimeSpec) : Option String :=
  (s.namespaces.find? (fun n => n.typ == "network")).map (fun n => n.path)

/-- Modelled from the spec: seccomp resolution (`generateSeccompSpecOpts`,
defined outside src/) — no modification when seccomp is disabled at the node
level or the container is privileged; unconfined and the default profile
translate to concrete options; an unrecognized profile reference fails. -/
inductive SeccompOpt
  | defaultProfile
  | localhostProfile (path : String)
deriving DecidableEq, Repr

def generateSeccompSpecOpts (profile : String) (privileged seccompEnabled : Bool) :
    Except Unit (Option SeccompOpt) :=
  if !seccompEnabled || privileged then .ok none
  else if profile = "" || profile = "unconfined" then .ok none
  else if profile = "runtime/default" then .ok (some .defaultProfile)
  else if "localhost/".isPrefixOf profile then
    .ok (some (.localhostProfile profile))
  else .error ()

/-! ### The RunPodSandbox saga over an explicit world state -/

/-- Error kinds surfaced by RunPodSandbox, one per early return. -/
inductive CriError
  | conflict
  | imageError
  | namespaceCreateError
  | networkSetupError
  | specGenError (e : SpecGenError)
  | invalidSeccompProfile
  | createContainerError
  | createRootDirError
  | filesystemError (e : SetupError)
  | createTaskError
  | startTaskError
  | duplicateID
deriving DecidableEq, Repr

/-- A committed sandbox record: id, derived name, network namespace path
(empty under host networking) and the execution handle. -/
structure SandboxRecord where
  id : String
  name : String
  netNSPath : String
  containerId : String
deriving DecidableEq, Repr

/-- Provisioning and compensation events, recorded in order. -/
inductive Event
  | reservedName (name id : String)
  | releasedName (name : String)
  | createdNetNS (path : String)
  | removedNetNS (path : String)
  | cniSetUp (id : String)
  | cniTornDown (id : String)
  | createdContainer (id : String)
  | deletedContainer (id : String)
  | createdRootDir (dir : String)
  | removedRootDir (dir : String)
  | filesSetUp (dir : String)
  | filesUnmounted (dir : String)
  | createdTask (id : String)
  | deletedTask (id : String)
  | startedTask (id : String)
  | addedToStore (id : String)
deriving DecidableEq, Repr

/-- The world the saga acts on: the name registry, the live OS and engine
resources, the sandbox store, and the event log. -/
structure WorldState where
  reserved : List (String × String)
  netNamespaces : List String
  cniPods : List String
  containers : List (String × RuntimeSpec)
  tasks : List String
  rootDirs : List String
  os : OSState
  store : List SandboxRecord
  log : List Event
deriving DecidableEq, Repr

/-- The empty initial world. -/
def initState : WorldState :=
  { reserved := [], netNamespaces := [], cniPods := [], containers := [],
    tasks := [], rootDirs := [], os := { files := [], dirs := [], mounts := [] },
    store := [], log := [] }

/-- Failure-injection environment for one creation request: the generated id,
the resolved image config, the node-level flags, and which collaborator calls
succeed. -/
structure Env where
  id : String
  rootDir : String
  imageOk : Bool
  imageConfig : ImageConfig
  netnsOk : Bool
  cniOk : Bool
  newContainerOk : Bool
  mkdirRootOk : Bool
  osEnv : OSEnv
  newTaskOk : Bool
  taskStartOk : Bool
  seccompEnabled : Bool
  systemdCgroup : Bool
deriving DecidableEq, Repr

/-- Modelled from the spec: the sandbox name is derived deterministically
from the pod metadata (name, namespace, UID, attempt counter), as
`makeSandboxName` does outside src/. -/
def makeSandboxName (config : PodSandboxConfig) : String :=
  config.metaName ++ "_" ++ config.metaNamespace ++ "_" ++ config.metaUid ++
    "_" ++ toString config.metaAttempt

/-- Modelled from the spec: the filesystem path of a newly created network
namespace (`sandboxstore.NewNetNS`, outside src/), unique per sandbox id. -/
def netnsPathOf (id : String) : String := "/var/run/netns/" ++ id

/-- The name registry's Reserve: fails with Conflict when the name is held by
a different id. -/
def reserveName (name id : String) (st : WorldState) :
    Except CriError WorldState :=
  if st.reserved.any (fun p => p.fst == name && p.snd != id) then .error .conflict
  else .ok { st with reserved := st.reserved ++ [(name, id)],
                     log := st.log ++ [.reservedName name id] }

/-- The name registry's ReleaseByName: idempotent removal. -/
def releaseByName (name : String) (st : WorldState) : WorldState :=
  { st with reserved := st.reserved.filter (fun p => p.fst != name),
            log := st.log ++ [.releasedName name] }

def createNetNS (path : String) (st : WorldState) : WorldState :=
  { st with netNamespaces := st.netNamespaces ++ [path],
            log := st.log ++ [.createdNetNS path] }

def removeNetNS (path : String) (st : WorldState) : WorldState :=
  { st with netNamespaces := st.netNamespaces.filter (fun p => p != path),
            log := st.log ++ [.removedNetNS path] }

def cniSetUpPod (id : String) (st : WorldState) : WorldState :=
  { st with cniPods := st.cniPods ++ [id], log := st.log ++ [.cniSetUp id] }

def cniTearDownPod (id : String) (st : WorldState) : WorldState :=
  { st with cniPods := st.cniPods.filter (fun p => p != id),
            log := st.log ++ [.cniTornDown id] }

/-- The network rollback pair of RunPodSandbox's deferred handlers, in their
LIFO order: tear down CNI wiring, then remove the namespace. -/
def netCleanup (hostNet : Bool) (id nsPath : String) (st : WorldState) :
    WorldState :=
  if hostNet then st else removeNetNS nsPath (cniTearDownPod id st)

def createContainer (id : String) (spec : RuntimeSpec) (st : WorldState) :
    WorldState :=
  { st with containers := st.containers ++ [(id, spec)],
            log := st.log ++ [.createdContainer id] }

def deleteContainer (id : String) (st : WorldState) : WorldState :=
  { st with containers := st.containers.filter (fun p => p.fst != id),
            log := st.log ++ [.deletedContainer id] }

def createRootDir (dir : String) (st : WorldState) : WorldState :=
  { st with rootDirs := st.rootDirs ++ [dir], log := st.log ++ [.createdRootDir dir] }

def removeRootDir (dir : String) (st : WorldState) : WorldState :=
  { st with rootDirs := st.rootDirs.filter (fun d => d != dir),
            log := st.log ++ [.removedRootDir dir] }

/-- The deferred unmountSandboxFiles rollback: best-effort, errors logged. -/
def unmountFilesRollback (rootDir : String) (config : PodSandboxConfig)
    (st : WorldState) : WorldState :=
  match unmountSandboxFiles rootDir config st.os with
  | .ok os2 => { st with os := os2, log := st.log ++ [.filesUnmounted rootDir] }
  | .error _ => { st with log := st.log ++ [.filesUnmounted rootDir] }

def createTask (id : String) (st : WorldState) : WorldState :=
  { st with tasks := st.tasks ++ [id], log := st.log ++ [.createdTask id] }

def deleteTask (id : String) (st : WorldState) : WorldState :=
  { st with tasks := st.tasks.filter (fun t => t != id),
            log := st.log ++ [.deletedTask id] }

def startTask (id : String) (st : WorldState) : WorldState :=
  { st with log := st.log ++ [.startedTask id] }

/-- The sandbox store's Add: fails with DuplicateID on an existing id. -/
def storeAdd (sb : SandboxRecord) (st : WorldState) :
    Except CriError WorldState :=
  if st.store.any (fun s => s.id == sb.id) then .error .duplicateID
  else .ok { st with store := st.store ++ [sb],
                     log := st.log ++ [.addedToStore sb.id] }

/-- The tail of RunPodSandbox from spec generation onward. Each failure
return applies exactly the deferred compensations registered so far, in their
LIFO order. -/
def runFromSpec (env : Env) (config : PodSandboxConfig) (st : WorldState)
    (id name nsPath : String) (hostNet : Bool) :
    Except CriError String × WorldState :=
  match generateSandboxContainerSpec id config env.imageConfig nsPath
      env.systemdCgroup with
  | .error e =>
    (.error (.specGenError e), releaseByName name (netCleanup hostNet id nsPath st))
  | .ok spec =>
    match generateSeccompSpecOpts config.seccompProfilePath config.privileged
        env.seccompEnabled with
    | .error _ =>
      (.error .invalidSeccompProfile,
       releaseByName name (netCleanup hostNet id nsPath st))
    | .ok _seccompOpt =>
      if !env.newContainerOk then
        (.error .createContainerError,
         releaseByName name (netCleanup hostNet id nsPath st))
      else
        let st1 := createContainer id spec st
        let sandboxRootDir := getSandboxRootDir env.rootDir id
        if !env.mkdirRootOk then
          (.error .createRootDirError,
           releaseByName name (netCleanup hostNet id nsPath (deleteContainer id st1)))
        else
          let st2 := createRootDir sandboxRootDir st1
          match setupSandboxFiles env.osEnv sandboxRootDir config st2.os with
          | (.error e, os2) =>
            (.error (.filesystemError e),
             releaseByName name (netCleanup hostNet id nsPath
               (deleteContainer id (removeRootDir sandboxRootDir { st2 with os := os2 }))))
          | (.ok _, os2) =>
            let st3 := { st2 with os := os2, log := st2.log ++ [.filesSetUp sandboxRootDir] }
            if !env.newTaskOk then
              (.error .createTaskError,
               releaseByName name (netCleanup hostNet id nsPath
                 (deleteContainer id (removeRootDir sandboxRootDir
                   (unmountFilesRollback sandboxRootDir config st3)))))
            else
              let st4 := createTask id st3
              if !env.taskStartOk then
                (.error .startTaskError,
                 releaseByName name (netCleanup hostNet id nsPath
                   (deleteContainer id (removeRootDir sandboxRootDir
                     (unmountFilesRollback sandboxRootDir config (deleteTask id st4))))))
              else
                let st5 := startTask id st4
                let sb : SandboxRecord :=
                  { id := id, name := name, netNSPath := nsPath, containerId := id }
                match storeAdd sb st5 with
                | .error e =>
                  (.error e,
                   releaseByName name (netCleanup hostNet id nsPath
                     (deleteContainer id (removeRootDir sandboxRootDir
                       (unmountFilesRollback sandboxRootDir config (deleteTask id st5))))))
                | .ok st6 => (.ok id, st6)

/-- Shallow embedding of `RunPodSandbox`: reserve the derived name, resolve
the sandbox image, create and wire the network namespace unless host
networking is requested, then generate the spec and provision the remaining
resources via `runFromSpec`. Failure at any point returns the originating
error after applying the deferred compensations in LIFO order. -/
def RunPodSandbox (env : Env) (config : PodSandboxConfig) (st0 : WorldState) :
    Except CriError String × WorldState :=
  let id := env.id
  let name := makeSandboxName config
  match reserveName name id st0 with
  | .error e => (.error e, st0)
  | .ok st1 =>
    if !env.imageOk then (.error .imageError, releaseByName name st1)
    else
      if config.hostNetwork then
        runFromSpec env config st1 id name "" true
      else
        if !env.netnsOk then
          (.error .namespaceCreateError, releaseByName name st1)
        else
          let nsPath := netnsPathOf id
          let st2 := createNetNS nsPath st1
          if !env.cniOk then
            (.error .networkSetupError, releaseByName name (removeNetNS nsPath st2))
          else
            let st3 := cniSetUpPod id st2
            runFromSpec env config st3 id name nsPath false

/-- A world holding no trace of the request: nothing reserved, no namespace,
CNI wiring, container, task, root directory, mount, or stored sandbox. -/
def CleanState (st : WorldState) : Prop :=
  st.reserved = [] ∧ st.netNamespaces = [] ∧ st.cniPods = [] ∧
  st.containers = [] ∧ st.tasks = [] ∧ st.rootDirs = [] ∧
  st.os.mounts = [] ∧ st.store = []

/-! ### Claims about the pure helpers -/

/-- Claim C4: DNS rendering produces a search line, then nameserver lines,
then an options line; on servers ["10.0.0.1","10.0.0.2"], searches
["a.svc","b.svc"], options ["ndots:5"] it returns exactly
"search a.svc b.svc\nnameserver 10.0.0.1\nnameserver 10.0.0.2\noptions ndots:5\n"
with no error. -/
theorem parseDNSOptions_renders_example :
    parseDNSOptions ["10.0.0.1", "10.0.0.2"] ["a.svc", "b.svc"] ["ndots:5"] =
      .ok "search a.svc b.svc\nnameserver 10.0.0.1\nnameserver 10.0.0.2\noptions ndots:5\n" := by
  rfl

/-- Claim C6: the CNI translation forwards exactly the mappings whose host
port is positive, preserving both ports and lower-casing the protocol; in
particular HostPort=0 entries are dropped and (8080, 80, TCP) maps to the
entry (8080, 80, "tcp"). -/
theorem toCNIPortMappings_forwards_positive_hostports :
    (∀ l : List PortMapping, toCNIPortMappings l = cniPortMappingsSpec l) ∧
    toCNIPortMappings
        [{ protocol := .udp, containerPort := 53, hostPort := 0, hostIp := "" },
         { protocol := .tcp, containerPort := 80, hostPort := 8080, hostIp := "" }] =
      [{ hostPort := 8080, containerPort := 80, protocol := "tcp", hostIP := "" }] := by
  constructor
  · intro l
    induction l with
    | nil => rfl
    | cons m rest ih =>
      by_cases h : m.hostPort ≤ 0
      · have h2 : ¬ (0 < m.hostPort) := by omega
        simp [toCNIPortMappings, cniPortMappingsSpec, h, h2] at ih ⊢
        simpa [cniPortMappingsSpec] using ih
      · have h2 : 0 < m.hostPort := by omega
        simp [toCNIPortMappings, cniPortMappingsSpec, h, h2] at ih ⊢
        simpa [cniPortMappingsSpec] using ih
  · rfl

/-! ### Helper lemmas for the filesystem claims -/

theorem getSandboxHosts_ne_getResolvPath (rootDir : String) :
    getSandboxHosts rootDir ≠ getResolvPath rootDir := by
  intro h
  have h2 := congrArg String.length h
  have e1 : ("/etc-hosts" : String).length = 10 := rfl
  have e2 : ("/resolv.conf" : String).length = 12 := rfl
  simp only [getSandboxHosts, getResolvPath, String.length_append, e1, e2] at h2
  omega

theorem any_eq_of_filter_ne (l : List MountRecord) (t : String) :
    (l.filter (fun m => m.target != t)).any (fun m => m.target == t) = false := by
  induction l with
  | nil => rfl
  | cons m rest ih =>
    by_cases h : m.target = t
    · simp [List.filter_cons, h, ih]
    · simp [List.filter_cons, h, ih]

theorem resolvStep_no_dns_error (env : OSEnv) (rootDir content : String)
    (os : OSState) :
    (resolvStep env rootDir content os).fst ≠ .error .dnsInvalidConfig := by
  unfold resolvStep
  by_cases hc : content = "" <;> cases hcr : env.copyResolvOk <;>
    cases hwr : env.writeResolvOk <;> simp [hc, hcr, hwr]

theorem shmStep_no_dns_error (env : OSEnv) (rootDir : String)
    (config : PodSandboxConfig) (os : OSState) :
    (shmStep env rootDir config os).fst ≠ .error .dnsInvalidConfig := by
  unfold shmStep
  cases config.hostIpc <;> cases env.hostShmExists <;> cases env.mkdirShmOk <;>
    cases env.mountShmOk <;> simp

theorem shmStep_files (env : OSEnv) (rootDir : String)
    (config : PodSandboxConfig) (os : OSState) :
    (shmStep env rootDir config os).snd.files = os.files := by
  unfold shmStep
  cases config.hostIpc <;> cases env.hostShmExists <;> cases env.mkdirShmOk <;>
    cases env.mountShmOk <;> simp

/-- Claim C5: a DNS config with more than `maxDNSSearches` (6) search domains
makes filesystem setup fail with the InvalidConfig DNS error and no resolver
file is written to the sandbox root, while at most 6 search domains never
produce that error. -/
theorem setupSandboxFiles_dns_search_overflow (env : OSEnv) (rootDir : String)
    (config : PodSandboxConfig) (d : DNSConfig) (os : OSState)
    (hd : config.dnsConfig = some d) (hh : env.copyHostsOk = true) :
    (d.searches.length > maxDNSSearches →
       (setupSandboxFiles env rootDir config os).fst = .error .dnsInvalidConfig ∧
       ∀ fa ∈ (setupSandboxFiles env rootDir config os).snd.files,
         fa.dst = getResolvPath rootDir → fa ∈ os.files) ∧
    (d.searches.length ≤ maxDNSSearches →
       (setupSandboxFiles env rootDir config os).fst ≠ .error .dnsInvalidConfig) := by
  constructor
  · intro hlen
    have hparse : resolvContentOf config = .error .dnsInvalidConfig := by
      simp [resolvContentOf, hd, parseDNSOptions, hlen]
    constructor
    · simp [setupSandboxFiles, hh, hparse]
    · intro fa hfa hdst
      simp [setupSandboxFiles, hh, hparse] at hfa
      rcases hfa with hfa | hfa
      · exact hfa
      · subst hfa
        simp [FileAction.dst] at hdst
        exact absurd hdst (getSandboxHosts_ne_getResolvPath rootDir)
  · intro hlen
    have hnover : ¬ (d.searches.length > maxDNSSearches) := by omega
    obtain ⟨c, hc⟩ : ∃ c, resolvContentOf config = .ok c := by
      simp [resolvContentOf, hd, parseDNSOptions, hnover]
    have hunf : setupSandboxFiles env rootDir config os =
        (match resolvStep env rootDir c
            { os with files := os.files ++ [FileAction.copied etcHosts (getSandboxHosts rootDir)] } with
         | (.error e, os2) => (.error e, os2)
         | (.ok _, os2) => shmStep env rootDir config os2) := by
      simp [setupSandboxFiles, hh, hc]
    rw [hunf]
    rcases h2 : resolvStep env rootDir c
        { os with files := os.files ++ [FileAction.copied etcHosts (getSandboxHosts rootDir)] }
      with ⟨fst2, os2⟩
    cases fst2 with
    | error e =>
      have hne := resolvStep_no_dns_error env rootDir c
        { os with files := os.files ++ [FileAction.copied etcHosts (getSandboxHosts rootDir)] }
      rw [h2] at hne
      simpa using hne
    | ok u => exact shmStep_no_dns_error env rootDir config os2

/-- Witness for C5 at a concrete 7-search-domain configuration. -/
theorem setupSandboxFiles_dns_search_overflow_witness :
    let env : OSEnv :=
      { copyHostsOk := true, copyResolvOk := true, writeResolvOk := true,
        hostShmExists := true, mkdirShmOk := true, mountShmOk := true }
    let d : DNSConfig :=
      { servers := [], options := [],
        searches := ["a", "b", "c", "d", "e", "f", "g"] }
    let config : PodSandboxConfig :=
      { metaName := "p", metaNamespace := "ns", metaUid := "u",
        metaAttempt := 0, hostname := "h", cgroupParent := "",
        hostNetwork := false, hostPid := false, hostIpc := false,
        privileged := false, seccompProfilePath := "", selinuxOptions := none,
        supplementalGroups := [], sysctls := [], dnsConfig := some d,
        portMappings := [] }
    let os : OSState := { files := [], dirs := [], mounts := [] }
    (d.searches.length > maxDNSSearches →
       (setupSandboxFiles env "/r" config os).fst = .error .dnsInvalidConfig ∧
       ∀ fa ∈ (setupSandboxFiles env "/r" config os).snd.files,
         fa.dst = getResolvPath "/r" → fa ∈ os.files) ∧
    (d.searches.length ≤ maxDNSSearches →
       (setupSandboxFiles env "/r" config os).fst ≠ .error .dnsInvalidConfig) := by
  exact setupSandboxFiles_dns_search_overflow _ "/r" _ _ _ rfl rfl

/-- Claim C7: filesystem teardown removes only the sandbox-private shm mount
and never fails: it is a no-op on a host-IPC sandbox, leaves files and
directories untouched, and a second call in a row also succeeds without
changing anything. -/
theorem unmountSandboxFiles_idempotent_noop (rootDir : String)
    (config : PodSandboxConfig) (os : OSState) :
    ∃ os1, unmountSandboxFiles rootDir config os = .ok os1 ∧
      unmountSandboxFiles rootDir config os1 = .ok os1 ∧
      (config.hostIpc = true → os1 = os) ∧
      os1.files = os.files ∧ os1.dirs = os.dirs ∧
      (config.hostIpc = false →
        os1.mounts = os.mounts.filter (fun m => m.target != getSandboxDevShm rootDir)) := by
  by_cases hipc : config.hostIpc
  · exact ⟨os, by simp [unmountSandboxFiles, hipc]⟩
  · simp only [Bool.not_eq_true] at hipc
    by_cases hin : os.mounts.any (fun m => m.target == getSandboxDevShm rootDir)
    · refine ⟨{ os with mounts := os.mounts.filter (fun m => m.target != getSandboxDevShm rootDir) }, ?_, ?_, ?_, rfl, rfl, ?_⟩
      · simp [unmountSandboxFiles, hipc, osUnmount, hin]
      · simp [unmountSandboxFiles, hipc, osUnmount, any_eq_of_filter_ne]
      · simp [hipc]
      · simp
    · have hfilter : os.mounts.filter (fun m => m.target != getSandboxDevShm rootDir) =
          os.mounts := by
        apply List.filter_eq_self.mpr
        intro m hm
        simp only [List.any_eq_true, not_exists, not_and] at hin
        simpa using hin m hm
      refine ⟨os, ?_, ?_, fun _ => rfl, rfl, rfl, fun _ => hfilter.symm⟩
      · simp [unmountSandboxFiles, hipc, osUnmount, hin]
      · simp [unmountSandboxFiles, hipc, osUnmount, hin]

/-- Claim C8: under host IPC, filesystem setup only checks the host's
/dev/shm (erring when it is missing) and creates no mount or directory;
otherwise it creates the private shm directory and mounts a tmpfs there with
the noexec, nosuid and nodev flags, mode 1777 and the fixed default size. -/
theorem setupSandboxFiles_shm (env : OSEnv) (rootDir : String)
    (config : PodSandboxConfig) (os : OSState)
    (hh : env.copyHostsOk = true) (hdns : config.dnsConfig = none)
    (hcr : env.copyResolvOk = true) :
    (config.hostIpc = true →
       (setupSandboxFiles env rootDir config os).snd.mounts = os.mounts ∧
       (setupSandboxFiles env rootDir config os).snd.dirs = os.dirs ∧
       (env.hostShmExists = true →
          (setupSandboxFiles env rootDir config os).fst = .ok ()) ∧
       (env.hostShmExists = false →
          (setupSandboxFiles env rootDir config os).fst = .error .hostShmMissing)) ∧
    (config.hostIpc = false → env.mkdirShmOk = true → env.mountShmOk = true →
       (setupSandboxFiles env rootDir config os).fst = .ok () ∧
       (setupSandboxFiles env rootDir config os).snd.dirs =
         os.dirs ++ [getSandboxDevShm rootDir] ∧
       (setupSandboxFiles env rootDir config os).snd.mounts = os.mounts ++
         [{ source := "shm", target := getSandboxDevShm rootDir, fstype := "tmpfs",
            flags := MS_NOEXEC ||| MS_NOSUID ||| MS_NODEV,
            data := "mode=1777,size=67108864" }] ∧
       (MS_NOEXEC ||| MS_NOSUID ||| MS_NODEV) &&& MS_NOEXEC ≠ 0 ∧
       (MS_NOEXEC ||| MS_NOSUID ||| MS_NODEV) &&& MS_NOSUID ≠ 0 ∧
       (MS_NOEXEC ||| MS_NOSUID ||| MS_NODEV) &&& MS_NODEV ≠ 0) := by
  have hc : resolvContentOf config = .ok "" := by simp [resolvContentOf, hdns]
  constructor
  · intro hipc
    cases hse : env.hostShmExists <;>
      simp [setupSandboxFiles, hh, hc, resolvStep, hcr, shmStep, hipc, hse]
  · intro hipc hmk hmnt
    have hdata : "mode=1777,size=" ++ toString defaultShmSize =
        "mode=1777,size=67108864" := rfl
    refine ⟨?_, ?_, ?_, by decide, by decide, by decide⟩ <;>
      simp [setupSandboxFiles, hh, hc, resolvStep, hcr, shmStep, shmMountRecord,
        hipc, hmk, hmnt, hdata]

/-- Witness for C8 covering both the host-IPC and the private-shm cases at
concrete configurations. -/
theorem setupSandboxFiles_shm_witness :
    let env : OSEnv :=
      { copyHostsOk := true, copyResolvOk := true, writeResolvOk := true,
        hostShmExists := true, mkdirShmOk := true, mountShmOk := true }
    let config : PodSandboxConfig :=
      { metaName := "p", metaNamespace := "ns", metaUid := "u",
        metaAttempt := 0, hostname := "h", cgroupParent := "",
        hostNetwork := false, hostPid := false, hostIpc := false,
        privileged := false, seccompProfilePath := "", selinuxOptions := none,
        supplementalGroups := [], sysctls := [], dnsConfig := none,
        portMappings := [] }
    let os : OSState := { files := [], dirs := [], mounts := [] }
    (config.hostIpc = true →
       (setupSandboxFiles env "/r" config os).snd.mounts = os.mounts ∧
       (setupSandboxFiles env "/r" config os).snd.dirs = os.dirs ∧
       (env.hostShmExists = true →
          (setupSandboxFiles env "/r" config os).fst = .ok ()) ∧
       (env.hostShmExists = false →
          (setupSandboxFiles env "/r" config os).fst = .error .hostShmMissing)) ∧
    (config.hostIpc = false → env.mkdirShmOk = true → env.mountShmOk = true →
       (setupSandboxFiles env "/r" config os).fst = .ok () ∧
       (setupSandboxFiles env "/r" config os).snd.dirs =
         os.dirs ++ [getSandboxDevShm "/r"] ∧
       (setupSandboxFiles env "/r" config os).snd.mounts = os.mounts ++
         [{ source := "shm", target := getSandboxDevShm "/r", fstype := "tmpfs",
            flags := MS_NOEXEC ||| MS_NOSUID ||| MS_NODEV,
            data := "mode=1777,size=67108864" }] ∧
       (MS_NOEXEC ||| MS_NOSUID ||| MS_NODEV) &&& MS_NOEXEC ≠ 0 ∧
       (MS_NOEXEC ||| MS_NOSUID ||| MS_NODEV) &&& MS_NOSUID ≠ 0 ∧
       (MS_NOEXEC ||| MS_NOSUID ||| MS_NODEV) &&& MS_NODEV ≠ 0) := by
  exact setupSandboxFiles_shm _ "/r" _ _ rfl rfl rfl

/-- Claim C9: a present-but-empty DNS configuration renders to the empty
string with no error, and filesystem setup therefore takes the host-copy
path: the host's /etc/resolv.conf is copied into the sandbox and no
synthesized resolver file is written; the choice between the two paths is
decided by the rendered content being empty. -/
theorem setupSandboxFiles_empty_dns_copies_host (env : OSEnv) (rootDir : String)
    (config : PodSandboxConfig) (os : OSState)
    (hd : config.dnsConfig = some { servers := [], searches := [], options := [] })
    (hh : env.copyHostsOk = true) (hcr : env.copyResolvOk = true) :
    parseDNSOptions [] [] [] = .ok "" ∧
    (setupSandboxFiles env rootDir config os).snd.files =
      os.files ++ [.copied etcHosts (getSandboxHosts rootDir),
                   .copied resolvConfPath (getResolvPath rootDir)] := by
  refine ⟨rfl, ?_⟩
  have hc : resolvContentOf config = .ok "" := by
    simp [resolvContentOf, hd, parseDNSOptions]
  simp [setupSandboxFiles, hh, hc, resolvStep, hcr, shmStep_files]

/-- Witness for C9 at a concrete empty DNS configuration. -/
theorem setupSandboxFiles_empty_dns_copies_host_witness :
    let env : OSEnv :=
      { copyHostsOk := true, copyResolvOk := true, writeResolvOk := true,
        hostShmExists := true, mkdirShmOk := true, mountShmOk := true }
    let config : PodSandboxConfig :=
      { metaName := "p", metaNamespace := "ns", metaUid := "u",
        metaAttempt := 0, hostname := "h", cgroupParent := "",
        hostNetwork := false, hostPid := false, hostIpc := false,
        privileged := false, seccompProfilePath := "", selinuxOptions := none,
        supplementalGroups := [], sysctls := [],
        dnsConfig := some { servers := [], searches := [], options := [] },
        portMappings := [] }
    let os : OSState := { files := [], dirs := [], mounts := [] }
    parseDNSOptions [] [] [] = .ok "" ∧
    (setupSandboxFiles env "/r" config os).snd.files =
      os.files ++ [.copied etcHosts (getSandboxHosts "/r"),
                   .copied resolvConfPath (getResolvPath "/r")] := by
  exact setupSandboxFiles_empty_dns_copies_host _ "/r" _ _ rfl rfl rfl

/-! ### Mount bookkeeping lemmas for the rollback analysis -/

theorem resolvStep_mounts (env : OSEnv) (rootDir content : String)
    (os : OSState) : (resolvStep env rootDir content os).snd.mounts = os.mounts := by
  unfold resolvStep
  by_cases hc : content = "" <;> cases env.copyResolvOk <;>
    cases env.writeResolvOk <;> simp [hc]

theorem shmStep_mounts (env : OSEnv) (rootDir : String)
    (config : PodSandboxConfig) (os : OSState) :
    ∃ ms, (shmStep env rootDir config os).snd.mounts = os.mounts ++ ms ∧
      (ms = [] ∨ (ms = [shmMountRecord rootDir] ∧ config.hostIpc = false)) := by
  unfold shmStep
  cases hipc : config.hostIpc
  · cases hmk : env.mkdirShmOk
    · exact ⟨[], by simp, .inl rfl⟩
    · cases hmnt : env.mountShmOk
      · exact ⟨[], by simp, .inl rfl⟩
      · exact ⟨[shmMountRecord rootDir], by simp, .inr ⟨rfl, rfl⟩⟩
  · cases hse : env.hostShmExists
    · exact ⟨[], by simp, .inl rfl⟩
    · exact ⟨[], by simp, .inl rfl⟩

theorem setupSandboxFiles_mounts (env : OSEnv) (rootDir : String)
    (config : PodSandboxConfig) (os : OSState) :
    ∃ ms, (setupSandboxFiles env rootDir config os).snd.mounts = os.mounts ++ ms ∧
      (ms = [] ∨ (ms = [shmMountRecord rootDir] ∧ config.hostIpc = false)) := by
  unfold setupSandboxFiles
  cases hch : env.copyHostsOk
  · exact ⟨[], by simp, .inl rfl⟩
  · rcases hrc : resolvContentOf config with e | c
    · exact ⟨[], by simp, .inl rfl⟩
    · simp only [Bool.not_true, Bool.false_eq_true, if_false]
      rcases hrs : resolvStep env rootDir c
          { os with files := os.files ++ [FileAction.copied etcHosts (getSandboxHosts rootDir)] }
        with ⟨rfst, os2⟩
      have hos2 : os2.mounts = os.mounts := by
        have := resolvStep_mounts env rootDir c
          { os with files := os.files ++ [FileAction.copied etcHosts (getSandboxHosts rootDir)] }
        rw [hrs] at this
        simpa using this
      cases rfst with
      | error e => exact ⟨[], by simp [hos2], .inl rfl⟩
      | ok u =>
        obtain ⟨ms, hm, hcase⟩ := shmStep_mounts env rootDir config os2
        exact ⟨ms, by simp [hm, hos2], hcase⟩

theorem shmStep_error_mounts (env : OSEnv) (rootDir : String)
    (config : PodSandboxConfig) (os : OSState) (e : SetupError)
    (h : (shmStep env rootDir config os).fst = .error e) :
    (shmStep env rootDir config os).snd.mounts = os.mounts := by
  unfold shmStep at h ⊢
  cases hipc : config.hostIpc <;> cases hse : env.hostShmExists <;>
    cases hmk : env.mkdirShmOk <;> cases hmnt : env.mountShmOk <;> simp_all

theorem setupSandboxFiles_error_mounts (env : OSEnv) (rootDir : String)
    (config : PodSandboxConfig) (os : OSState) (e : SetupError)
    (h : (setupSandboxFiles env rootDir config os).fst = .error e) :
    (setupSandboxFiles env rootDir config os).snd.mounts = os.mounts := by
  cases hch : env.copyHostsOk
  · simp [setupSandboxFiles, hch]
  · rcases hrc : resolvContentOf config with e2 | c
    · simp [setupSandboxFiles, hch, hrc]
    · rcases hrs : resolvStep env rootDir c
          { os with files := os.files ++ [FileAction.copied etcHosts (getSandboxHosts rootDir)] }
        with ⟨rfst, os2⟩
      have hos2 : os2.mounts = os.mounts := by
        have h2 := resolvStep_mounts env rootDir c
          { os with files := os.files ++ [FileAction.copied etcHosts (getSandboxHosts rootDir)] }
        rw [hrs] at h2
        simpa using h2
      cases rfst with
      | error e3 => simp [setupSandboxFiles, hch, hrc, hrs, hos2]
      | ok u =>
        have h3 : (shmStep env rootDir config os2).fst = .error e := by
          simpa [setupSandboxFiles, hch, hrc, hrs] using h
        have h4 := shmStep_error_mounts env rootDir config os2 e h3
        simpa [setupSandboxFiles, hch, hrc, hrs, hos2] using h4

theorem unmountFilesRollback_mounts_nil (rootDir : String)
    (config : PodSandboxConfig) (st : WorldState)
    (hm : st.os.mounts = [] ∨
      (st.os.mounts = [shmMountRecord rootDir] ∧ config.hostIpc = false)) :
    (unmountFilesRollback rootDir config st).os.mounts = [] := by
  rcases hm with hm | ⟨hm, hipc⟩
  · unfold unmountFilesRollback unmountSandboxFiles osUnmount
    cases config.hostIpc <;> simp [hm]
  · unfold unmountFilesRollback unmountSandboxFiles osUnmount
    simp [hipc, hm, shmMountRecord]

/-! ### Rollback analysis of the saga -/

theorem cleanup_clean (hostNet : Bool) (id nsPath name : String)
    (st : WorldState)
    (hres : st.reserved = [(name, id)])
    (hnet : st.netNamespaces = if hostNet then [] else [nsPath])
    (hcni : st.cniPods = if hostNet then [] else [id])
    (hcont : st.containers = []) (htasks : st.tasks = [])
    (hroot : st.rootDirs = []) (hmounts : st.os.mounts = [])
    (hstore : st.store = []) :
    CleanState (releaseByName name (netCleanup hostNet id nsPath st)) := by
  cases hostNet <;>
    simp_all [CleanState, releaseByName, netCleanup, removeNetNS, cniTearDownPod]

@[simp]
theorem unmountFilesRollback_reserved (rd : String) (config : PodSandboxConfig)
    (st : WorldState) : (unmountFilesRollback rd config st).reserved = st.reserved := by
  unfold unmountFilesRollback
  split <;> rfl

@[simp]
theorem unmountFilesRollback_netNamespaces (rd : String)
    (config : PodSandboxConfig) (st : WorldState) :
    (unmountFilesRollback rd config st).netNamespaces = st.netNamespaces := by
  unfold unmountFilesRollback
  split <;> rfl

@[simp]
theorem unmountFilesRollback_cniPods (rd : String) (config : PodSandboxConfig)
    (st : WorldState) : (unmountFilesRollback rd config st).cniPods = st.cniPods := by
  unfold unmountFilesRollback
  split <;> rfl

@[simp]
theorem unmountFilesRollback_containers (rd : String)
    (config : PodSandboxConfig) (st : WorldState) :
    (unmountFilesRollback rd config st).containers = st.containers := by
  unfold unmountFilesRollback
  split <;> rfl

@[simp]
theorem unmountFilesRollback_tasks (rd : String) (config : PodSandboxConfig)
    (st : WorldState) : (unmountFilesRollback rd config st).tasks = st.tasks := by
  unfold unmountFilesRollback
  split <;> rfl

@[simp]
theorem unmountFilesRollback_rootDirs (rd : String) (config : PodSandboxConfig)
    (st : WorldState) : (unmountFilesRollback rd config st).rootDirs = st.rootDirs := by
  unfold unmountFilesRollback
  split <;> rfl

@[simp]
theorem unmountFilesRollback_store (rd : String) (config : PodSandboxConfig)
    (st : WorldState) : (unmountFilesRollback rd config st).store = st.store := by
  unfold unmountFilesRollback
  split <;> rfl

/-- Every failure branch of `runFromSpec` restores a world clean of the
request, given the world it starts from holds exactly the name reservation
and the network resources. -/
theorem runFromSpec_error_clean (env : Env) (config : PodSandboxConfig)
    (st : WorldState) (id name nsPath : String) (hostNet : Bool) (e : CriError)
    (hres : st.reserved = [(name, id)])
    (hnet : st.netNamespaces = if hostNet then [] else [nsPath])
    (hcni : st.cniPods = if hostNet then [] else [id])
    (hcont : st.containers = []) (htasks : st.tasks = [])
    (hroot : st.rootDirs = []) (hmounts : st.os.mounts = [])
    (hstore : st.store = [])
    (h : (runFromSpec env config st id name nsPath hostNet).fst = .error e) :
    CleanState (runFromSpec env config st id name nsPath hostNet).snd := by
  cases hg : generateSandboxContainerSpec id config env.imageConfig nsPath
      env.systemdCgroup with
  | error ge =>
    simp only [runFromSpec, hg]
    exact cleanup_clean hostNet id nsPath name st hres hnet hcni hcont htasks
      hroot hmounts hstore
  | ok spec =>
  cases hsec : generateSeccompSpecOpts config.seccompProfilePath
      config.privileged env.seccompEnabled with
  | error se =>
    simp only [runFromSpec, hg, hsec]
    exact cleanup_clean hostNet id nsPath name st hres hnet hcni hcont htasks
      hroot hmounts hstore
  | ok sopt =>
  cases hbc : env.newContainerOk with
  | false =>
    simp only [runFromSpec, hg, hsec, hbc]
    exact cleanup_clean hostNet id nsPath name st hres hnet hcni hcont htasks
      hroot hmounts hstore
  | true =>
  cases hbm : env.mkdirRootOk with
  | false =>
    simp only [runFromSpec, hg, hsec, hbc, hbm]
    apply cleanup_clean <;>
      simp [deleteContainer, createContainer, hres, hnet, hcni, hcont, htasks,
        hroot, hmounts, hstore]
  | true =>
  rcases hsu : setupSandboxFiles env.osEnv (getSandboxRootDir env.rootDir id)
      config (createRootDir (getSandboxRootDir env.rootDir id)
        (createContainer id spec st)).os with ⟨sfst, os2⟩
  have hsetmounts : (createRootDir (getSandboxRootDir env.rootDir id)
      (createContainer id spec st)).os.mounts = [] := by
    simp [createRootDir, createContainer, hmounts]
  cases sfst with
  | error se =>
    have herrm := setupSandboxFiles_error_mounts env.osEnv
      (getSandboxRootDir env.rootDir id) config
      (createRootDir (getSandboxRootDir env.rootDir id)
        (createContainer id spec st)).os se (by rw [hsu])
    rw [hsu] at herrm
    simp only at herrm
    rw [hsetmounts] at herrm
    simp only [runFromSpec, hg, hsec, hbc, hbm, hsu]
    apply cleanup_clean <;>
      simp [deleteContainer, createContainer, createRootDir, removeRootDir,
        herrm, hres, hnet, hcni, hcont, htasks, hroot, hstore]
  | ok u =>
  obtain ⟨ms, hmseq, hmscase⟩ := setupSandboxFiles_mounts env.osEnv
    (getSandboxRootDir env.rootDir id) config
    (createRootDir (getSandboxRootDir env.rootDir id)
      (createContainer id spec st)).os
  rw [hsu] at hmseq
  simp only at hmseq
  rw [hsetmounts] at hmseq
  simp only [List.nil_append] at hmseq
  have hosnil : ∀ st2 : WorldState, st2.os.mounts = os2.mounts →
      (unmountFilesRollback (getSandboxRootDir env.rootDir id) config st2).os.mounts = [] := by
    intro st2 h2
    apply unmountFilesRollback_mounts_nil
    rw [h2, hmseq]
    exact hmscase
  cases hbt : env.newTaskOk with
  | false =>
    simp only [runFromSpec, hg, hsec, hbc, hbm, hsu, hbt]
    apply cleanup_clean
    case hmounts =>
      simp only [deleteContainer, removeRootDir]
      exact hosnil _ rfl
    all_goals
      simp [deleteContainer, createContainer, createRootDir, removeRootDir,
        hres, hnet, hcni, hcont, htasks, hroot, hstore]
  | true =>
  cases hbs : env.taskStartOk with
  | false =>
    simp only [runFromSpec, hg, hsec, hbc, hbm, hsu, hbt, hbs]
    apply cleanup_clean
    case hmounts =>
      simp only [deleteContainer, removeRootDir, deleteTask, createTask]
      exact hosnil _ rfl
    all_goals
      simp [deleteTask, createTask, deleteContainer, createContainer,
        createRootDir, removeRootDir, hres, hnet, hcni, hcont,
        htasks, hroot, hstore]
  | true =>
    exfalso
    simp only [runFromSpec, hg, hsec, hbc, hbm, hbt, hbs] at h
    rw [hsu] at h
    simp [storeAdd, startTask, createTask, createRootDir, createContainer,
      hstore] at h

/-- Any creation request that returns an error from the empty initial world
leaves a world clean of the request. -/
theorem runPodSandbox_error_clean (env : Env) (config : PodSandboxConfig)
    (e : CriError)
    (h : (RunPodSandbox env config initState).fst = .error e) :
    CleanState (RunPodSandbox env config initState).snd := by
  have hreserve : reserveName (makeSandboxName config) env.id initState =
      .ok { initState with
              reserved := [(makeSandboxName config, env.id)],
              log := [.reservedName (makeSandboxName config) env.id] } := by
    simp [reserveName, initState]
  cases hi : env.imageOk with
  | false =>
    simp only [RunPodSandbox, hreserve, hi] at h ⊢
    simp [CleanState, releaseByName, initState]
  | true =>
  cases hhn : config.hostNetwork with
  | true =>
    simp only [RunPodSandbox, hreserve, hi, hhn] at h ⊢
    refine runFromSpec_error_clean _ _ _ _ _ _ _ e ?_ ?_ ?_ ?_ ?_ ?_ ?_ ?_ h <;>
      simp [initState]
  | false =>
  cases hns : env.netnsOk with
  | false =>
    simp only [RunPodSandbox, hreserve, hi, hhn, hns] at h ⊢
    simp [CleanState, releaseByName, initState]
  | true =>
  cases hcn : env.cniOk with
  | false =>
    simp only [RunPodSandbox, hreserve, hi, hhn, hns, hcn] at h ⊢
    simp [CleanState, releaseByName, removeNetNS, createNetNS, initState]
  | true =>
    simp only [RunPodSandbox, hreserve, hi, hhn, hns, hcn] at h ⊢
    refine runFromSpec_error_clean _ _ _ _ _ _ _ e ?_ ?_ ?_ ?_ ?_ ?_ ?_ ?_ h <;>
      simp [cniSetUpPod, createNetNS, initState]

/-- Claim C1: a creation request that fails at any point after the name
reservation succeeded returns with every completed step compensated: the
sandbox is absent from the store, no root directory, network namespace, CNI
wiring, container, task or shm mount remains, the reservation is gone, and
the name can be reserved again by any id. -/
theorem runPodSandbox_atomicity (env : Env) (config : PodSandboxConfig)
    (e : CriError)
    (h : (RunPodSandbox env config initState).fst = .error e) :
    CleanState (RunPodSandbox env config initState).snd ∧
    (∀ id2, ∃ st2, reserveName (makeSandboxName config) id2
        (RunPodSandbox env config initState).snd = .ok st2) := by
  have hc := runPodSandbox_error_clean env config e h
  refine ⟨hc, fun id2 => ?_⟩
  obtain ⟨hres, _⟩ := hc
  cases hr : reserveName (makeSandboxName config) id2
      (RunPodSandbox env config initState).snd with
  | error e2 =>
    exfalso
    simp [reserveName, hres] at hr
  | ok st2 => exact ⟨st2, rfl⟩

/-- Witness for C1: a request whose task start fails, after every earlier
step (netns, CNI, container, root dir, files, task) succeeded. -/
theorem runPodSandbox_atomicity_witness :
    let env : Env :=
      { id := "sb1", rootDir := "/var/lib/cri", imageOk := true,
        imageConfig := { env := [], workingDir := "", entrypoint := ["/pause"], cmd := [] },
        netnsOk := true, cniOk := true, newContainerOk := true,
        mkdirRootOk := true,
        osEnv :=
          { copyHostsOk := true, copyResolvOk := true, writeResolvOk := true,
            hostShmExists := true, mkdirShmOk := true, mountShmOk := true },
        newTaskOk := true, taskStartOk := false, seccompEnabled := true,
        systemdCgroup := false }
    let config : PodSandboxConfig :=
      { metaName := "p", metaNamespace := "ns", metaUid := "u",
        metaAttempt := 0, hostname := "h", cgroupParent := "",
        hostNetwork := false, hostPid := false, hostIpc := false,
        privileged := false, seccompProfilePath := "", selinuxOptions := none,
        supplementalGroups := [], sysctls := [], dnsConfig := none,
        portMappings := [] }
    CleanState (RunPodSandbox env config initState).snd ∧
    (∀ id2, ∃ st2, reserveName (makeSandboxName config) id2
        (RunPodSandbox env config initState).snd = .ok st2) := by
  exact runPodSandbox_atomicity _ _ .startTaskError rfl

/-- Claim C10: image resolution runs after the name reservation and before
any other provisioning: when it fails the call returns the image error, and
the world records exactly one reservation followed by its release — no
namespace, directory or execution resource was ever created or compensated. -/
theorem runPodSandbox_image_failure_only_releases (env : Env)
    (config : PodSandboxConfig) (h : env.imageOk = false) :
    RunPodSandbox env config initState =
      (.error .imageError,
       { initState with
           log := [.reservedName (makeSandboxName config) env.id,
                   .releasedName (makeSandboxName config)] }) := by
  simp [RunPodSandbox, reserveName, releaseByName, initState, h]

/-- Witness for C10 at a concrete request with a failing image pull. -/
theorem runPodSandbox_image_failure_only_releases_witness :
    let env : Env :=
      { id := "sb1", rootDir := "/var/lib/cri", imageOk := false,
        imageConfig := { env := [], workingDir := "", entrypoint := ["/pause"], cmd := [] },
        netnsOk := true, cniOk := true, newContainerOk := true,
        mkdirRootOk := true,
        osEnv :=
          { copyHostsOk := true, copyResolvOk := true, writeResolvOk := true,
            hostShmExists := true, mkdirShmOk := true, mountShmOk := true },
        newTaskOk := true, taskStartOk := true, seccompEnabled := true,
        systemdCgroup := false }
    let config : PodSandboxConfig :=
      { metaName := "p", metaNamespace := "ns", metaUid := "u",
        metaAttempt := 0, hostname := "h", cgroupParent := "",
        hostNetwork := false, hostPid := false, hostIpc := false,
        privileged := false, seccompProfilePath := "", selinuxOptions := none,
        supplementalGroups := [], sysctls := [], dnsConfig := none,
        portMappings := [] }
    RunPodSandbox env config initState =
      (.error .imageError,
       { initState with
           log := [.reservedName (makeSandboxName config) env.id,
                   .releasedName (makeSandboxName config)] }) := by
  exact runPodSandbox_image_failure_only_releases _ _ rfl

/-! ### Spec-builder lemmas and the entrypoint and network-namespace claims -/

theorem generateSandboxContainerSpec_empty_entrypoint (id : String)
    (config : PodSandboxConfig) (ic : ImageConfig) (nsPath : String)
    (sysd : Bool) (h : ic.entrypoint = []) :
    generateSandboxContainerSpec id config ic nsPath sysd =
      .error .emptyEntrypoint := by
  simp [generateSandboxContainerSpec, h]

theorem generateSandboxContainerSpec_args (id : String)
    (config : PodSandboxConfig) (ic : ImageConfig) (nsPath : String)
    (sysd : Bool) (spec : RuntimeSpec)
    (h : generateSandboxContainerSpec id config ic nsPath sysd = .ok spec) :
    spec.processArgs = ic.entrypoint ++ ic.cmd := by
  cases he : ic.entrypoint.isEmpty with
  | true => simp [generateSandboxContainerSpec, he] at h
  | false =>
    simp only [generateSandboxContainerSpec, he, Bool.false_eq_true, if_false,
      Except.ok.injEq] at h
    subst h
    simp [removeLinuxNamespace, addOrReplaceLinuxNamespace,
      apply_ite RuntimeSpec.processArgs]

theorem generateSandboxContainerSpec_netns (id : String)
    (config : PodSandboxConfig) (ic : ImageConfig) (nsPath : String)
    (sysd : Bool) (spec : RuntimeSpec)
    (h : generateSandboxContainerSpec id config ic nsPath sysd = .ok spec) :
    networkNamespaceEntry spec =
      if config.hostNetwork then none else some nsPath := by
  cases he : ic.entrypoint.isEmpty with
  | true => simp [generateSandboxContainerSpec, he] at h
  | false =>
    simp only [generateSandboxContainerSpec, he, Bool.false_eq_true, if_false,
      Except.ok.injEq] at h
    subst h
    cases hwn : config.hostNetwork <;> cases hp : config.hostPid <;>
      cases hip : config.hostIpc <;>
      by_cases hcg : config.cgroupParent = "" <;>
      by_cases hwd : ic.workingDir = "" <;>
      simp [networkNamespaceEntry, removeLinuxNamespace,
        addOrReplaceLinuxNamespace, defaultRuntimeSpec, hcg, hwd]

theorem netnsPathOf_ne_empty (id : String) : netnsPathOf id ≠ "" := by
  intro h
  have h2 := congrArg String.length h
  have e1 : ("/var/run/netns/" : String).length = 15 := rfl
  have e0 : ("" : String).length = 0 := rfl
  simp only [netnsPathOf, String.length_append, e1, e0] at h2
  omega

/-- With an image config lacking an entrypoint, every creation request fails
with some error: either an earlier step fails, or spec generation rejects the
config. -/
theorem runPodSandbox_empty_entrypoint_fails (env : Env)
    (config : PodSandboxConfig) (h : env.imageConfig.entrypoint = []) :
    ∃ e, (RunPodSandbox env config initState).fst = .error e := by
  have hgen : ∀ nsP, generateSandboxContainerSpec env.id config
      env.imageConfig nsP env.systemdCgroup = .error .emptyEntrypoint :=
    fun nsP => generateSandboxContainerSpec_empty_entrypoint _ _ _ _ _ h
  cases hi : env.imageOk with
  | false =>
    exact ⟨.imageError, by simp [RunPodSandbox, reserveName, initState, hi]⟩
  | true =>
  cases hhn : config.hostNetwork with
  | true =>
    exact ⟨.specGenError .emptyEntrypoint,
      by simp [RunPodSandbox, reserveName, initState, hi, hhn, runFromSpec, hgen]⟩
  | false =>
  cases hns : env.netnsOk with
  | false =>
    exact ⟨.namespaceCreateError,
      by simp [RunPodSandbox, reserveName, initState, hi, hhn, hns]⟩
  | true =>
  cases hcn : env.cniOk with
  | false =>
    exact ⟨.networkSetupError,
      by simp [RunPodSandbox, reserveName, initState, hi, hhn, hns, hcn]⟩
  | true =>
    exact ⟨.specGenError .emptyEntrypoint,
      by simp [RunPodSandbox, reserveName, initState, hi, hhn, hns, hcn,
        runFromSpec, hgen]⟩

/-- Claim C3: an image config with an empty entrypoint makes spec generation
fail with the InvalidConfig entrypoint error, the creation call fails, and
the returned world is clean of the request; with a non-empty entrypoint any
generated specification's process arguments are the entrypoint concatenated
with the image's default command. -/
theorem runPodSandbox_entrypoint_required (env : Env)
    (config : PodSandboxConfig) (h : env.imageConfig.entrypoint = []) :
    (∀ id2 cfg2 ic2 nsP sysd, ic2.entrypoint = [] →
        generateSandboxContainerSpec id2 cfg2 ic2 nsP sysd =
          .error .emptyEntrypoint) ∧
    (∀ id2 cfg2 ic2 nsP sysd spec2,
        generateSandboxContainerSpec id2 cfg2 ic2 nsP sysd = .ok spec2 →
        spec2.processArgs = ic2.entrypoint ++ ic2.cmd) ∧
    (∃ e, (RunPodSandbox env config initState).fst = .error e) ∧
    CleanState (RunPodSandbox env config initState).snd := by
  obtain ⟨e, he⟩ := runPodSandbox_empty_entrypoint_fails env config h
  exact ⟨fun a b c d f hf => generateSandboxContainerSpec_empty_entrypoint a b c d f hf,
         fun a b c d f s hs => generateSandboxContainerSpec_args a b c d f s hs,
         ⟨e, he⟩, runPodSandbox_error_clean env config e he⟩

/-- Witness for C3 at a concrete request whose image config has an empty
entrypoint. -/
theorem runPodSandbox_entrypoint_required_witness :
    let env : Env :=
      { id := "sb1", rootDir := "/var/lib/cri", imageOk := true,
        imageConfig := { env := [], workingDir := "", entrypoint := [], cmd := [] },
        netnsOk := true, cniOk := true, newContainerOk := true,
        mkdirRootOk := true,
        osEnv :=
          { copyHostsOk := true, copyResolvOk := true, writeResolvOk := true,
            hostShmExists := true, mkdirShmOk := true, mountShmOk := true },
        newTaskOk := true, taskStartOk := true, seccompEnabled := true,
        systemdCgroup := false }
    let config : PodSandboxConfig :=
      { metaName := "p", metaNamespace := "ns", metaUid := "u",
        metaAttempt := 0, hostname := "h", cgroupParent := "",
        hostNetwork := false, hostPid := false, hostIpc := false,
        privileged := false, seccompProfilePath := "", selinuxOptions := none,
        supplementalGroups := [], sysctls := [], dnsConfig := none,
        portMappings := [] }
    (∀ id2 cfg2 ic2 nsP sysd, ic2.entrypoint = [] →
        generateSandboxContainerSpec id2 cfg2 ic2 nsP sysd =
          .error .emptyEntrypoint) ∧
    (∀ id2 cfg2 ic2 nsP sysd spec2,
        generateSandboxContainerSpec id2 cfg2 ic2 nsP sysd = .ok spec2 →
        spec2.processArgs = ic2.entrypoint ++ ic2.cmd) ∧
    (∃ e, (RunPodSandbox env config initState).fst = .error e) ∧
    CleanState (RunPodSandbox env config initState).snd := by
  exact runPodSandbox_entrypoint_required _ _ rfl

/-- A successful run commits exactly one sandbox record, whose specification
was generated at the namespace path carried by the record. -/
theorem runFromSpec_ok_state (env : Env) (config : PodSandboxConfig)
    (st : WorldState) (id name nsPath : String) (hostNet : Bool) (sid : String)
    (hstore : st.store = [])
    (h : (runFromSpec env config st id name nsPath hostNet).fst = .ok sid) :
    sid = id ∧
    ∃ spec,
      generateSandboxContainerSpec id config env.imageConfig nsPath
        env.systemdCgroup = .ok spec ∧
      (runFromSpec env config st id name nsPath hostNet).snd.store =
        [{ id := id, name := name, netNSPath := nsPath, containerId := id }] ∧
      (runFromSpec env config st id name nsPath hostNet).snd.netNamespaces =
        st.netNamespaces ∧
      (runFromSpec env config st id name nsPath hostNet).snd.containers =
        st.containers ++ [(id, spec)] := by
  cases hg : generateSandboxContainerSpec id config env.imageConfig nsPath
      env.systemdCgroup with
  | error ge => exfalso; simp [runFromSpec, hg] at h
  | ok spec =>
  cases hsec : generateSeccompSpecOpts config.seccompProfilePath
      config.privileged env.seccompEnabled with
  | error se => exfalso; simp [runFromSpec, hg, hsec] at h
  | ok sopt =>
  cases hbc : env.newContainerOk with
  | false => exfalso; simp [runFromSpec, hg, hsec, hbc] at h
  | true =>
  cases hbm : env.mkdirRootOk with
  | false => exfalso; simp [runFromSpec, hg, hsec, hbc, hbm] at h
  | true =>
  rcases hsu : setupSandboxFiles env.osEnv (getSandboxRootDir env.rootDir id)
      config (createRootDir (getSandboxRootDir env.rootDir id)
        (createContainer id spec st)).os with ⟨sfst, os2⟩
  cases sfst with
  | error se =>
    exfalso
    simp only [runFromSpec, hg, hsec, hbc, hbm] at h
    rw [hsu] at h
    simp at h
  | ok u =>
  cases hbt : env.newTaskOk with
  | false =>
    exfalso
    simp only [runFromSpec, hg, hsec, hbc, hbm, hbt] at h
    rw [hsu] at h
    simp at h
  | true =>
  cases hbs : env.taskStartOk with
  | false =>
    exfalso
    simp only [runFromSpec, hg, hsec, hbc, hbm, hbt, hbs] at h
    rw [hsu] at h
    simp at h
  | true =>
    simp only [runFromSpec, hg, hsec, hbc, hbm, hbt, hbs] at h ⊢
    rw [hsu] at h ⊢
    simp only [storeAdd, startTask, createTask, createRootDir,
      createContainer, hstore] at h ⊢
    simp at h
    refine ⟨h.symm, spec, rfl, ?_, ?_, ?_⟩ <;> simp

/-- Claim C2: on every successful creation, the committed record's namespace
path is empty exactly when host networking was requested, the namespace list
of the world reflects the same choice, and the container's specification has
no network-namespace entry under host networking and otherwise one pointing
at the record's (non-empty) namespace path. -/
theorem runPodSandbox_netns_iff_not_hostnet (env : Env)
    (config : PodSandboxConfig) (sid : String)
    (h : (RunPodSandbox env config initState).fst = .ok sid) :
    ((RunPodSandbox env config initState).snd.store.map
        (fun sb => (sb.id, sb.netNSPath)) =
      [(env.id, if config.hostNetwork then "" else netnsPathOf env.id)]) ∧
    ((if config.hostNetwork then "" else netnsPathOf env.id) ≠ "" ↔
      config.hostNetwork = false) ∧
    ((RunPodSandbox env config initState).snd.netNamespaces =
      if config.hostNetwork then [] else [netnsPathOf env.id]) ∧
    ((RunPodSandbox env config initState).snd.containers.map
        (fun p => (p.fst, networkNamespaceEntry p.snd)) =
      [(env.id, if config.hostNetwork then none
                else some (netnsPathOf env.id))]) := by
  have hiff : ((if config.hostNetwork then "" else netnsPathOf env.id) ≠ "" ↔
      config.hostNetwork = false) := by
    cases hhn : config.hostNetwork <;> simp [netnsPathOf_ne_empty]
  cases hi : env.imageOk with
  | false => exfalso; simp [RunPodSandbox, reserveName, initState, hi] at h
  | true =>
  cases hhn : config.hostNetwork with
  | true =>
    simp [RunPodSandbox, reserveName, initState, hi, hhn] at h ⊢
    obtain ⟨hsid, spec, hg, hst, hnet, hcont⟩ :=
      runFromSpec_ok_state env config _ env.id (makeSandboxName config) "" true
        sid rfl h
    have hns := generateSandboxContainerSpec_netns _ _ _ _ _ _ hg
    rw [hst, hnet, hcont]
    simp [hhn, hiff, hns, hsid]
  | false =>
  cases hns2 : env.netnsOk with
  | false => exfalso; simp [RunPodSandbox, reserveName, initState, hi, hhn, hns2] at h
  | true =>
  cases hcn : env.cniOk with
  | false =>
    exfalso
    simp [RunPodSandbox, reserveName, initState, hi, hhn, hns2, hcn] at h
  | true =>
    simp [RunPodSandbox, reserveName, initState, hi, hhn, hns2, hcn] at h ⊢
    obtain ⟨hsid, spec, hg, hst, hnet, hcont⟩ :=
      runFromSpec_ok_state env config _ env.id (makeSandboxName config)
        (netnsPathOf env.id) false sid
        (by simp [cniSetUpPod, createNetNS]) h
    have hns := generateSandboxContainerSpec_netns _ _ _ _ _ _ hg
    rw [hst, hnet, hcont]
    simp [cniSetUpPod, createNetNS, hhn, hiff, hns, hsid, netnsPathOf_ne_empty]

/-- Witness for C2 at a concrete fully successful non-host-network request. -/
theorem runPodSandbox_netns_iff_not_hostnet_witness :
    let env : Env :=
      { id := "sb1", rootDir := "/var/lib/cri", imageOk := true,
        imageConfig := { env := [], workingDir := "", entrypoint := ["/pause"], cmd := [] },
        netnsOk := true, cniOk := true, newContainerOk := true,
        mkdirRootOk := true,
        osEnv :=
          { copyHostsOk := true, copyResolvOk := true, writeResolvOk := true,
            hostShmExists := true, mkdirShmOk := true, mountShmOk := true },
        newTaskOk := true, taskStartOk := true, seccompEnabled := true,
        systemdCgroup := false }
    let config : PodSandboxConfig :=
      { metaName := "p", metaNamespace := "ns", metaUid := "u",
        metaAttempt := 0, hostname := "h", cgroupParent := "",
        hostNetwork := false, hostPid := false, hostIpc := false,
        privileged := false, seccompProfilePath := "", selinuxOptions := none,
        supplementalGroups := [], sysctls := [], dnsConfig := none,
        portMappings := [] }
    ((RunPodSandbox env config initState).snd.store.map
        (fun sb => (sb.id, sb.netNSPath)) =
      [(env.id, if config.hostNetwork then "" else netnsPathOf env.id)]) ∧
    ((if config.hostNetwork then "" else netnsPathOf env.id) ≠ "" ↔
      config.hostNetwork = false) ∧
    ((RunPodSandbox env config initState).snd.netNamespaces =
      if config.hostNetwork then [] else [netnsPathOf env.id]) ∧
    ((RunPodSandbox env config initState).snd.containers.map
        (fun p => (p.fst, networkNamespaceEntry p.snd)) =
      [(env.id, if config.hostNetwork then none
                else some (netnsPathOf env.id))]) := by
  exact runPodSandbox_netns_iff_not_hostnet _ _ "sb1" rfl

end CriSandbox
